import Mathlib

/-!
Shallow embedding of `src/lib/hooks/useScrollingNavigation.tsx` from the
`ydl-react-hooks` repository.

DOM numbers (scroll offsets, bounding-rect coordinates, window width) are
modelled as rationals (`ℚ`).  A DOM bounding client rect is the `Rect`
structure; a DOM element only matters through its rect, so `Element` wraps
one.  `document.getElementById` is modelled as a function
`String → Option Element`.

The scroll container (`HTMLElement | Window | null`, duck-typed in
`getScroll` by checking `scrollX !== undefined` and then
`scrollLeft !== undefined`) is the `Container` structure: `windowScroll`
holds `(scrollX, scrollY)` when the window scroll properties are defined
(on real DOM objects `scrollX` and `scrollY` are both present or both
absent, so they are modelled as one optional pair), `elementScroll` holds
`(scrollLeft, scrollTop)` likewise, and `rect` is the container's bounding
client rect.  A `null` container is `Option Container = none` at use sites.

Effects are explicit outputs: `container.scrollTo({...})` becomes a
returned `Option ScrollToCall`, and `console.error(...)` becomes a returned
`List String` of logged messages.
-/

namespace YdlHooks

/-- A DOM bounding client rect (`getBoundingClientRect()` result),
restricted to the four coordinates the source reads. -/
structure Rect where
  left : ℚ
  top : ℚ
  right : ℚ
  bottom : ℚ
deriving DecidableEq

/-- A DOM element, as far as `useScrollingNavigation` observes it:
only its bounding client rect. -/
structure Element where
  rect : Rect
deriving DecidableEq

/-- The scroll container passed to the hook, duck-typed as in the source:
`windowScroll = some (x, y)` models `scrollX`/`scrollY` being defined,
`elementScroll = some (l, t)` models `scrollLeft`/`scrollTop` being
defined, `rect` is the container's bounding client rect. -/
structure Container where
  windowScroll : Option (ℚ × ℚ)
  elementScroll : Option (ℚ × ℚ)
  rect : Rect
deriving DecidableEq

/-- The `ScrollDirection` enum from the source. -/
inductive ScrollDirection where
  | x
  | y
deriving DecidableEq

/-- The argument object of a `container.scrollTo({left, top, behavior})`
call. -/
structure ScrollToCall where
  left : ℚ
  top : ℚ
  behavior : String
deriving DecidableEq

/-- `getScroll` (source lines 111–126): returns the scroll data of the
container, checking `scrollX !== undefined` first, then
`scrollLeft !== undefined`, otherwise logging an error and returning
zeros.  The second component collects `console.error` messages. -/
def getScroll (element : Container) : List ℚ × List String :=
  match element.windowScroll with
  | some (x, y) => ([x, y, 0, 0], [])
  | none =>
    match element.elementScroll with
    | some (l, t) => ([l, t, element.rect.left, element.rect.top], [])
    | none =>
      ([0, 0, 0, 0], ["The element is neither of type Window or HTMLElement"])

/-- The `scroll` closure (source lines 45–62): returns the `scrollTo` call
it performs (if any) and the console-error messages emitted by its
`getScroll` call. -/
def scroll (targetElement : String) (container : Option Container)
    (getElementById : String → Option Element) (direction : ScrollDirection)
    (margin : ℚ) : Option ScrollToCall × List String :=
  if targetElement = "" then (none, [])
  else
    match container, getElementById targetElement with
    | some c, some element =>
      let res := getScroll c
      let scrollToX := res.1.getD 0 0 + element.rect.left - res.1.getD 2 0 - margin
      let scrollToY := res.1.getD 1 0 + element.rect.top - res.1.getD 3 0 - margin
      (some
        { left := if direction = ScrollDirection.x then scrollToX else 0
          top := if direction = ScrollDirection.y then scrollToY else 0
          behavior := "smooth" }, res.2)
    | _, _ => (none, [])

/-- The body of the `forEach` inside `determineActiveElement` (source
lines 76–94), acting on the pending active element: `setActiveElement` in
a loop means the last write wins, so the state is threaded through. -/
def spyStep (getElementById : String → Option Element)
    (direction : ScrollDirection) (windowWidth : ℚ)
    (activeElement : String) (elementId : String) : String :=
  match getElementById elementId with
  | some sectionEl =>
    let rect := sectionEl.rect
    if direction = ScrollDirection.x then
      if rect.left ≤ windowWidth * 0.1 ∧ rect.right ≥ windowWidth * 0.9 then
        elementId
      else activeElement
    else
      if rect.top ≤ 120 ∧ rect.bottom ≥ 120 then elementId
      else activeElement
  | none => activeElement

/-- `determineActiveElement` (source lines 75–95): iterates over
`elementsIds`, ending with the last ID whose element satisfies the
visibility threshold, or the previous active element if none does. -/
def determineActiveElement (elementsIds : List String)
    (getElementById : String → Option Element) (direction : ScrollDirection)
    (windowWidth : ℚ) (activeElement : String) : String :=
  elementsIds.foldl (spyStep getElementById direction windowWidth) activeElement

/-- Whether `determineActiveElement` would select `elementId`: the element
exists and its rect satisfies the threshold for the direction. -/
def checkElement (getElementById : String → Option Element)
    (direction : ScrollDirection) (windowWidth : ℚ) (elementId : String) : Bool :=
  match getElementById elementId with
  | some sectionEl =>
    if direction = ScrollDirection.x then
      decide (sectionEl.rect.left ≤ windowWidth * 0.1 ∧
        sectionEl.rect.right ≥ windowWidth * 0.9)
    else
      decide (sectionEl.rect.top ≤ 120 ∧ sectionEl.rect.bottom ≥ 120)
  | none => false

/-- The visibility threshold as the spec words it: for the y-axis a fixed
`top ≤ 120 ≤ bottom` band, for the x-axis `left ≤ 10%` and
`right ≥ 90%` of the window width. -/
def thresholdSpec (direction : ScrollDirection) (windowWidth : ℚ)
    (r : Rect) : Prop :=
  match direction with
  | ScrollDirection.x =>
    r.left ≤ windowWidth * (1 / 10) ∧ r.right ≥ windowWidth * (9 / 10)
  | ScrollDirection.y => r.top ≤ 120 ∧ r.bottom ≥ 120

/-- The last ID in `elementsIds` (list order) whose element satisfies the
visibility threshold, if any. -/
def lastMatchingId (elementsIds : List String)
    (getElementById : String → Option Element) (direction : ScrollDirection)
    (windowWidth : ℚ) : Option String :=
  elementsIds.reverse.find? (checkElement getElementById direction windowWidth)

theorem matchesThreshold_iff (getElementById : String → Option Element)
    (direction : ScrollDirection) (windowWidth : ℚ) (elementId : String) :
    checkElement getElementById direction windowWidth elementId = true ↔
      ∃ e, getElementById elementId = some e ∧
        thresholdSpec direction windowWidth e.rect := by
  unfold checkElement thresholdSpec
  cases h : getElementById elementId with
  | none => simp
  | some e =>
    cases direction
    all_goals simp
    all_goals norm_num

theorem spyStep_eq (getElementById : String → Option Element)
    (direction : ScrollDirection) (windowWidth : ℚ)
    (activeElement elementId : String) :
    spyStep getElementById direction windowWidth activeElement elementId =
      if checkElement getElementById direction windowWidth elementId then
        elementId
      else activeElement := by
  unfold spyStep checkElement
  cases getElementById elementId with
  | none => rfl
  | some e =>
    cases direction <;> simp

theorem determineActiveElement_eq (elementsIds : List String)
    (getElementById : String → Option Element) (direction : ScrollDirection)
    (windowWidth : ℚ) (activeElement : String) :
    determineActiveElement elementsIds getElementById direction windowWidth
        activeElement =
      (lastMatchingId elementsIds getElementById direction
        windowWidth).getD activeElement := by
  unfold determineActiveElement lastMatchingId
  induction elementsIds generalizing activeElement with
  | nil => rfl
  | cons x l ih =>
    rw [List.foldl_cons, ih, List.reverse_cons, List.find?_append]
    cases h : l.reverse.find? (checkElement getElementById direction windowWidth) with
    | some y => simp
    | none =>
      simp only [Option.none_orElse, spyStep_eq, List.find?]
      cases checkElement getElementById direction windowWidth x <;> simp

/-!
The React lifecycle of `useScrollingNavigation` (source lines 21–104) as a
step machine.  A `HookConfig` freezes the hook's arguments and DOM
environment; a `HookState` holds the two `useState` cells plus whether the
scroll listener attached by the third `useEffect` (lines 97–101) is
currently installed.  Events: the `activeElementId` prop changing (first
`useEffect`, line 38–40, which updates `targetElement` and, via the
dependency array `[targetElement, ...]` of the second `useEffect`, runs
`scroll` when the value actually changed); a `scroll` DOM event on the
container (running `determineActiveElement` when the listener is
installed, which requires a non-null container, lines 69–72); and unmount
(the cleanup at lines 98–100 removing the listener).  The hook's return
value (line 103) is the `activeElement` field.
-/

/-- The hook's arguments and DOM environment, fixed across events. -/
structure HookConfig where
  container : Option Container
  getElementById : String → Option Element
  elementsIds : List String
  direction : ScrollDirection
  margin : ℚ
  windowWidth : ℚ

/-- The hook instance's state: the two `useState` cells and whether the
scroll listener is installed. -/
structure HookState where
  activeElement : String
  targetElement : String
  listenerAttached : Bool
deriving DecidableEq

/-- Events driving the hook after its initial render. -/
inductive HookEvent where
  | propChange (newActiveElementId : String)
  | scrollEvent
  | unmount
deriving DecidableEq

/-- One lifecycle step: the next state, plus the `scrollTo` call and
console-error messages emitted (explicit effect outputs). -/
def step (cfg : HookConfig) (s : HookState) :
    HookEvent → HookState × (Option ScrollToCall × List String)
  | HookEvent.propChange id =>
    if id = s.targetElement then ({ s with targetElement := id }, (none, []))
    else
      ({ s with targetElement := id },
        scroll id cfg.container cfg.getElementById cfg.direction cfg.margin)
  | HookEvent.scrollEvent =>
    if s.listenerAttached && cfg.container.isSome then
      ({ s with
          activeElement :=
            determineActiveElement cfg.elementsIds cfg.getElementById
              cfg.direction cfg.windowWidth s.activeElement }, (none, []))
    else (s, (none, []))
  | HookEvent.unmount => ({ s with listenerAttached := false }, (none, []))

/-- Run a sequence of events, keeping only the state. -/
def runEvents (cfg : HookConfig) (s : HookState) (evs : List HookEvent) :
    HookState :=
  evs.foldl (fun st e => (step cfg st e).1) s

theorem runEvents_of_detached (cfg : HookConfig) (s : HookState)
    (evs : List HookEvent) (hdet : s.listenerAttached = false)
    (hscroll : ∀ e ∈ evs, e = HookEvent.scrollEvent) :
    runEvents cfg s evs = s := by
  induction evs with
  | nil => rfl
  | cons e evs ih =>
    have he : e = HookEvent.scrollEvent := hscroll e (List.mem_cons_self e evs)
    have hstep : (step cfg s e).1 = s := by
      subst he
      simp [step, hdet]
    unfold runEvents at ih ⊢
    rw [List.foldl_cons, hstep]
    exact ih fun e' he' => hscroll e' (List.mem_cons_of_mem e he')

/-! Concrete fixtures used by the witness theorems. -/

/-- A rect whose vertical band contains the 120px line. -/
def sampleRect : Rect := ⟨0, 100, 50, 200⟩

/-- An element with `sampleRect` as bounding rect. -/
def sampleElement : Element := ⟨sampleRect⟩

/-- A document containing exactly one element, with ID `"a"`. -/
def sampleDoc : String → Option Element :=
  fun id => if id = "a" then some sampleElement else none

/-- A window container: `scrollX`/`scrollY` defined. -/
def sampleWindow : Container := ⟨some (5, 7), none, ⟨0, 0, 0, 0⟩⟩

/-- A container that is neither a Window nor an HTMLElement. -/
def sampleOther : Container := ⟨none, none, ⟨1, 2, 3, 4⟩⟩

/-- A hook configuration over `sampleDoc` and `sampleWindow`. -/
def sampleConfig : HookConfig :=
  ⟨some sampleWindow, sampleDoc, ["a"], ScrollDirection.y, 0, 1000⟩

/-- C1: after a scroll event, for direction y an element whose rect
satisfies `top ≤ 120 ≤ bottom` becomes the active element, and for
direction x an element becomes active exactly when its rect satisfies
`left ≤ 10%` and `right ≥ 90%` of the window width: whenever some
candidate's element satisfies the threshold, the resulting active element
is a candidate whose element satisfies it, and the active element changes
only to such a candidate. -/
theorem scrollSpy_threshold_selects_active (elementsIds : List String)
    (getElementById : String → Option Element) (direction : ScrollDirection)
    (windowWidth : ℚ) (activeElement : String) :
    ((∃ id ∈ elementsIds, ∃ e, getElementById id = some e ∧
        thresholdSpec direction windowWidth e.rect) →
      determineActiveElement elementsIds getElementById direction windowWidth
          activeElement ∈ elementsIds ∧
        ∃ e, getElementById (determineActiveElement elementsIds getElementById
            direction windowWidth activeElement) = some e ∧
          thresholdSpec direction windowWidth e.rect) ∧
    (determineActiveElement elementsIds getElementById direction windowWidth
        activeElement ≠ activeElement →
      determineActiveElement elementsIds getElementById direction windowWidth
          activeElement ∈ elementsIds ∧
        ∃ e, getElementById (determineActiveElement elementsIds getElementById
            direction windowWidth activeElement) = some e ∧
          thresholdSpec direction windowWidth e.rect) := by
  rw [determineActiveElement_eq]
  unfold lastMatchingId
  cases hfind : elementsIds.reverse.find?
      (checkElement getElementById direction windowWidth) with
  | some y =>
    have hy : y ∈ elementsIds :=
      List.mem_reverse.mp (List.mem_of_find?_eq_some hfind)
    have hp : checkElement getElementById direction windowWidth y = true :=
      List.find?_some hfind
    have hex := (matchesThreshold_iff getElementById direction windowWidth y).mp hp
    exact ⟨fun _ => ⟨hy, hex⟩, fun _ => ⟨hy, hex⟩⟩
  | none =>
    have hall := List.find?_eq_none.mp hfind
    constructor
    · rintro ⟨id, hid, e, he, hth⟩
      exact absurd
        ((matchesThreshold_iff getElementById direction windowWidth id).mpr
          ⟨e, he, hth⟩)
        (by simpa using hall id (List.mem_reverse.mpr hid))
    · intro hne
      exact absurd rfl hne

/-- Witness for C1 at a concrete document: the element `"a"` with rect
`⟨0, 100, 50, 200⟩` satisfies the y-threshold, so the active element after
the event satisfies it. -/
theorem scrollSpy_threshold_selects_active_witness :
    determineActiveElement ["a"] sampleDoc ScrollDirection.y 1000 "" ∈
        ["a"] ∧
      ∃ e, sampleDoc (determineActiveElement ["a"] sampleDoc
          ScrollDirection.y 1000 "") = some e ∧
        thresholdSpec ScrollDirection.y 1000 e.rect :=
  (scrollSpy_threshold_selects_active ["a"] sampleDoc ScrollDirection.y 1000
      "").1
    ⟨"a", by simp, sampleElement, by simp [sampleDoc],
      by norm_num [thresholdSpec, sampleElement, sampleRect]⟩

/-- C2: with a non-empty target whose element exists in a non-null
container, `scrollTo` is invoked with smooth behavior and offset
current scroll + element rect left/top − container left/top − margin on
the configured axis, 0 on the other axis; the `getScroll` console output
passes through. -/
theorem scroll_invokes_scrollTo (targetElement : String) (c : Container)
    (getElementById : String → Option Element) (direction : ScrollDirection)
    (margin : ℚ) (element : Element) (hne : targetElement ≠ "")
    (helem : getElementById targetElement = some element) :
    scroll targetElement (some c) getElementById direction margin =
      (some
        { left :=
            if direction = ScrollDirection.x then
              (getScroll c).1.getD 0 0 + element.rect.left -
                (getScroll c).1.getD 2 0 - margin
            else 0
          top :=
            if direction = ScrollDirection.y then
              (getScroll c).1.getD 1 0 + element.rect.top -
                (getScroll c).1.getD 3 0 - margin
            else 0
          behavior := "smooth" }, (getScroll c).2) := by
  unfold scroll
  rw [if_neg hne, helem]

/-- Witness for C2: scrolling to `"a"` in the sample window container with
direction y and margin 10 produces a smooth `scrollTo` at
`7 + 100 - 0 - 10 = 97` on the y axis. -/
theorem scroll_invokes_scrollTo_witness :
    scroll "a" (some sampleWindow) sampleDoc ScrollDirection.y 10 =
      (some
        { left :=
            if ScrollDirection.y = ScrollDirection.x then
              (getScroll sampleWindow).1.getD 0 0 +
                  sampleElement.rect.left -
                (getScroll sampleWindow).1.getD 2 0 - 10
            else 0
          top :=
            if ScrollDirection.y = ScrollDirection.y then
              (getScroll sampleWindow).1.getD 1 0 + sampleElement.rect.top -
                (getScroll sampleWindow).1.getD 3 0 - 10
            else 0
          behavior := "smooth" }, (getScroll sampleWindow).2) :=
  scroll_invokes_scrollTo "a" sampleWindow sampleDoc ScrollDirection.y 10
    sampleElement (by decide) (by simp [sampleDoc])

/-- C3: within one scroll event, later matches in `elementsIds` override
earlier ones: the resulting active element is the last ID in list order
whose element satisfies the threshold, or the previous active element if
none matches. -/
theorem scrollSpy_last_match_wins (elementsIds : List String)
    (getElementById : String → Option Element) (direction : ScrollDirection)
    (windowWidth : ℚ) (activeElement : String) :
    determineActiveElement elementsIds getElementById direction windowWidth
        activeElement =
      (lastMatchingId elementsIds getElementById direction
          windowWidth).getD activeElement :=
  determineActiveElement_eq elementsIds getElementById direction windowWidth
    activeElement

/-- C4: with the empty string as target, `scroll` performs no `scrollTo`
call and emits no console output. -/
theorem scroll_empty_target_noop (container : Option Container)
    (getElementById : String → Option Element) (direction : ScrollDirection)
    (margin : ℚ) :
    scroll "" container getElementById direction margin = (none, []) := by
  unfold scroll
  rw [if_pos rfl]

/-- C5: with a null container or a target whose element does not exist,
`scroll` performs no `scrollTo` call and emits no console output. -/
theorem scroll_missing_noop (targetElement : String)
    (container : Option Container) (getElementById : String → Option Element)
    (direction : ScrollDirection) (margin : ℚ)
    (h : container = none ∨ getElementById targetElement = none) :
    scroll targetElement container getElementById direction margin =
      (none, []) := by
  unfold scroll
  by_cases ht : targetElement = ""
  · rw [if_pos ht]
  · rw [if_neg ht]
    rcases h with h | h
    · rw [h]
    · rw [h]
      cases container <;> rfl

/-- Witness for C5: scrolling to `"b"` (absent from `sampleDoc`) is a
silent no-op. -/
theorem scroll_missing_noop_witness :
    scroll "b" (some sampleWindow) sampleDoc ScrollDirection.y 0 =
      (none, []) :=
  scroll_missing_noop "b" (some sampleWindow) sampleDoc ScrollDirection.y 0
    (Or.inr (by simp [sampleDoc]))

/-- C6: on a container with neither `scrollX` nor `scrollLeft` defined,
`getScroll` logs an error and returns the zero vector. -/
theorem getScroll_unknown_container (c : Container)
    (hw : c.windowScroll = none) (he : c.elementScroll = none) :
    getScroll c =
      ([0, 0, 0, 0],
        ["The element is neither of type Window or HTMLElement"]) := by
  unfold getScroll
  rw [hw, he]

/-- Witness for C6 at the concrete non-Window, non-HTMLElement
container. -/
theorem getScroll_unknown_container_witness :
    getScroll sampleOther =
      ([0, 0, 0, 0],
        ["The element is neither of type Window or HTMLElement"]) :=
  getScroll_unknown_container sampleOther rfl rfl

/-- C7: the unmount step removes the scroll listener, and any sequence of
scroll events arriving afterwards leaves the hook state — in particular
the reported active element — unchanged. -/
theorem unmount_removes_listener (cfg : HookConfig) (s : HookState)
    (evs : List HookEvent)
    (hscroll : ∀ e ∈ evs, e = HookEvent.scrollEvent) :
    (step cfg s HookEvent.unmount).1.listenerAttached = false ∧
      runEvents cfg (step cfg s HookEvent.unmount).1 evs =
        (step cfg s HookEvent.unmount).1 ∧
      (runEvents cfg (step cfg s HookEvent.unmount).1 evs).activeElement =
        s.activeElement := by
  have h1 : (step cfg s HookEvent.unmount).1.listenerAttached = false := rfl
  have h2 := runEvents_of_detached cfg (step cfg s HookEvent.unmount).1 evs
    h1 hscroll
  refine ⟨h1, h2, ?_⟩
  rw [h2]
  rfl

/-- Witness for C7: after unmount, a concrete scroll event does not touch
the active element, even though the document still has a matching
element. -/
theorem unmount_removes_listener_witness :
    (step sampleConfig ⟨"", "", true⟩ HookEvent.unmount).1.listenerAttached =
        false ∧
      runEvents sampleConfig
          (step sampleConfig ⟨"", "", true⟩ HookEvent.unmount).1
          [HookEvent.scrollEvent] =
        (step sampleConfig ⟨"", "", true⟩ HookEvent.unmount).1 ∧
      (runEvents sampleConfig
          (step sampleConfig ⟨"", "", true⟩ HookEvent.unmount).1
          [HookEvent.scrollEvent]).activeElement =
        (⟨"", "", true⟩ : HookState).activeElement :=
  unmount_removes_listener sampleConfig ⟨"", "", true⟩ [HookEvent.scrollEvent]
    (by simp)

/-- C8: when no candidate's element exists and satisfies the threshold,
the scroll handler leaves the active element unchanged — it is never
cleared or reset. -/
theorem scrollSpy_no_match_keeps_active (elementsIds : List String)
    (getElementById : String → Option Element) (direction : ScrollDirection)
    (windowWidth : ℚ) (activeElement : String)
    (h : ∀ id ∈ elementsIds, ∀ e, getElementById id = some e →
      ¬thresholdSpec direction windowWidth e.rect) :
    determineActiveElement elementsIds getElementById direction windowWidth
        activeElement = activeElement := by
  rw [determineActiveElement_eq]
  unfold lastMatchingId
  rw [List.find?_eq_none.mpr]
  · rfl
  · intro id hid hcheck
    obtain ⟨e, he, hth⟩ :=
      (matchesThreshold_iff getElementById direction windowWidth id).mp hcheck
    exact h id (List.mem_reverse.mp hid) e he hth

/-- Witness for C8: with the sole candidate `"b"` absent from the
document, the active element `"x"` is kept. -/
theorem scrollSpy_no_match_keeps_active_witness :
    determineActiveElement ["b"] sampleDoc ScrollDirection.y 1000 "x" =
      "x" :=
  scrollSpy_no_match_keeps_active ["b"] sampleDoc ScrollDirection.y 1000 "x"
    (by intro id hid e he; simp at hid; simp [hid, sampleDoc] at he)

/-- C9: a change of the `activeElementId` argument leaves the returned
active element unchanged, sets the internal scroll target to the new
value, and (when the target actually changed) triggers the `scroll`
routine. -/
theorem propChange_only_updates_target (cfg : HookConfig) (s : HookState)
    (id : String) :
    (step cfg s (HookEvent.propChange id)).1.activeElement =
        s.activeElement ∧
      (step cfg s (HookEvent.propChange id)).1.targetElement = id ∧
      (id ≠ s.targetElement →
        (step cfg s (HookEvent.propChange id)).2 =
          scroll id cfg.container cfg.getElementById cfg.direction
            cfg.margin) := by
  unfold step
  by_cases h : id = s.targetElement <;> simp [h]

/-- Witness for C9: changing the prop to `"a"` in a state whose target is
`""` keeps the active element and emits the `scroll` effect. -/
theorem propChange_only_updates_target_witness :
    (step sampleConfig ⟨"z", "", true⟩
          (HookEvent.propChange "a")).1.activeElement =
        (⟨"z", "", true⟩ : HookState).activeElement ∧
      (step sampleConfig ⟨"z", "", true⟩
          (HookEvent.propChange "a")).1.targetElement = "a" ∧
      (step sampleConfig ⟨"z", "", true⟩ (HookEvent.propChange "a")).2 =
        scroll "a" sampleConfig.container sampleConfig.getElementById
          sampleConfig.direction sampleConfig.margin :=
  ⟨(propChange_only_updates_target sampleConfig ⟨"z", "", true⟩ "a").1,
    (propChange_only_updates_target sampleConfig ⟨"z", "", true⟩ "a").2.1,
    (propChange_only_updates_target sampleConfig ⟨"z", "", true⟩ "a").2.2
      (by decide)⟩

/-- C10: `getScroll` is total: it always returns a list of exactly four
numbers; with `scrollX` defined it returns `[scrollX, scrollY, 0, 0]`,
and with `scrollX` undefined but `scrollLeft` defined it returns
`[scrollLeft, scrollTop, rect.left, rect.top]`. -/
theorem getScroll_total (c : Container) :
    (getScroll c).1.length = 4 ∧
      (∀ x y, c.windowScroll = some (x, y) →
        (getScroll c).1 = [x, y, 0, 0]) ∧
      (c.windowScroll = none → ∀ l t, c.elementScroll = some (l, t) →
        (getScroll c).1 = [l, t, c.rect.left, c.rect.top]) := by
  unfold getScroll
  cases hw : c.windowScroll with
  | some p =>
    obtain ⟨x, y⟩ := p
    refine ⟨rfl, ?_, ?_⟩
    · intro x' y' hxy
      cases hxy
      rfl
    · intro hnone
      cases hnone
  | none =>
    cases he : c.elementScroll with
    | some p =>
      obtain ⟨l, t⟩ := p
      refine ⟨rfl, ?_, ?_⟩
      · intro x' y' hxy
        cases hxy
      · intro _ l' t' hlt
        cases hlt
        rfl
    | none =>
      refine ⟨rfl, ?_, ?_⟩
      · intro x' y' hxy
        cases hxy
      · intro _ l' t' hlt
        cases hlt

/-- Witness for C10 at the sample window container: `getScroll` returns
`[5, 7, 0, 0]`. -/
theorem getScroll_total_witness :
    (getScroll sampleWindow).1.length = 4 ∧
      (getScroll sampleWindow).1 = [5, 7, 0, 0] :=
  ⟨(getScroll_total sampleWindow).1,
    (getScroll_total sampleWindow).2.1 5 7 rfl⟩

end YdlHooks
